import Mathlib

/-!
Verification of the Add Stock form logic (`src/components/AddStocks.js`).

The file embeds the reconciliation logic of the form: the debounced
`checkExistingStock` effect (lines 29-92), the input filter
`handleInputChange` (lines 98-110), the submission path `validateForm` /
`handleSubmit` (lines 112-160), and the preview rendering of lines 230-242.
Network reads are modelled as explicit query-result parameters; the four
pieces of component state touched by the logic (`error`, `productError`,
`currentStock`, `stockIdExists`) form an explicit state record.
-/

/-- A stock record as returned by `GET /api/stocks`:
`{ id, product_id, quantity }`, all non-negative integers. -/
structure StockRecord where
  id : Nat
  product_id : Nat
  quantity : Nat
deriving DecidableEq, Repr

/-- The form fields `formData.stockId / productId / quantity`.  Each field is
raw text, either empty (`none`) or — thanks to `handleInputChange`, proved
below — a non-negative integer literal, represented by its value. -/
structure FormData where
  stockId : Option Nat
  productId : Option Nat
  quantity : Option Nat
deriving DecidableEq, Repr

/-- The component state written by the reconciliation logic:
`error`, `productError`, `currentStock`, `stockIdExists`. -/
structure UiState where
  error : String
  productError : String
  currentStock : Option StockRecord
  stockIdExists : Bool
deriving DecidableEq, Repr

/-- The state the form opens in (the `isOpen` effect, lines 18-26). -/
def initState : UiState :=
  { error := "", productError := "", currentStock := none, stockIdExists := false }

/-- Outcome of `GET /api/products?id=...`: the product is found, the response
carries `product: null`, or the request itself fails. -/
inductive ProductQueryResult where
  | found
  | notFound
  | transportError
deriving DecidableEq, Repr

/-- Outcome of `GET /api/stocks?page=1&limit=100`: the stock snapshot, or a
transport failure. -/
inductive StocksQueryResult where
  | ok (stocks : List StockRecord)
  | transportError
deriving DecidableEq, Repr

/-- Line 65: `Stock ID ${formData.stockId} is already assigned to Product ID
${existingStock.product_id}`. -/
def stockConflictMsg (sid pid : Nat) : String :=
  "Stock ID " ++ toString sid ++ " is already assigned to Product ID " ++ toString pid

/-- Line 74: `Product ID ${formData.productId} already has Stock ID
${productStock.id}`. -/
def productConflictMsg (pid sid : Nat) : String :=
  "Product ID " ++ toString pid ++ " already has Stock ID " ++ toString sid

/-- Line 81: `Current stock quantity: ${existingStock.quantity}. New quantity
will be added to this.` -/
def updatePreviewMsg (q : Nat) : String :=
  "Current stock quantity: " ++ toString q ++ ". New quantity will be added to this."

/-- Lines 57-58: `existingStock` is the first record of the snapshot whose
`id` equals the parsed `stockId`, when a stockId is supplied. -/
def findStockById (stocks : List StockRecord) : Option Nat → Option StockRecord
  | some sid => stocks.find? (fun r => r.id == sid)
  | none => none

/-- Lines 59-60: `productStock` is the first record of the snapshot whose
`product_id` equals the parsed `productId`, when a productId is supplied. -/
def findStockByProduct (stocks : List StockRecord) : Option Nat → Option StockRecord
  | some pid => stocks.find? (fun r => r.product_id == pid)
  | none => none

/-- Lines 34-47: when a productId is supplied, the product query must come
back `found`; a `product: null` response and a thrown request are handled by
the same code paths (lines 37-41 and 42-46). -/
def productMissing (fd : FormData) (pq : Nat → ProductQueryResult) : Bool :=
  match fd.productId with
  | some pid =>
    match pq pid with
    | ProductQueryResult.found => false
    | ProductQueryResult.notFound => true
    | ProductQueryResult.transportError => true
  | none => false

/-- Line 73's guard: `productStock && (!existingStock || existingStock.id !==
productStock.id)`. -/
def conflictsWith (existingStock : Option StockRecord) (ps : StockRecord) : Bool :=
  match existingStock with
  | none => true
  | some es => es.id != ps.id

/-- Lines 79-87: the update-preview branch.  When `existingStock` exists and
its `product_id` equals the supplied productId, the preview is shown;
otherwise (including an empty productId, where the strict comparison against
`parseInt('')` is false) the preview and both messages are cleared. -/
def previewPhase (fd : FormData) (existingStock : Option StockRecord) (s : UiState) : UiState :=
  match existingStock, fd.productId with
  | some es, some pid =>
    if es.product_id = pid then
      { s with currentStock := some es, error := updatePreviewMsg es.quantity, productError := "" }
    else
      { s with currentStock := none, error := "", productError := "" }
  | _, _ =>
    { s with currentStock := none, error := "", productError := "" }

/-- Lines 73-77: the product-already-bound rejection, then the preview. -/
def productBoundPhase (fd : FormData) (existingStock productStock : Option StockRecord)
    (s : UiState) : UiState :=
  match productStock with
  | some ps =>
    if conflictsWith existingStock ps then
      { s with productError := productConflictMsg (fd.productId.getD ps.product_id) ps.id,
               currentStock := none }
    else
      previewPhase fd existingStock s
  | none => previewPhase fd existingStock s

/-- Lines 62-71: record whether the stockId exists, then the
stock-already-assigned rejection, then the later phases. -/
def stockAssignedPhase (fd : FormData) (existingStock productStock : Option StockRecord)
    (s : UiState) : UiState :=
  let s1 := { s with stockIdExists := existingStock.isSome }
  match existingStock, fd.stockId, fd.productId with
  | some es, some sid, some pid =>
    if es.product_id ≠ pid then
      { s1 with productError := stockConflictMsg sid es.product_id, currentStock := none }
    else
      productBoundPhase fd existingStock productStock s1
  | _, _, _ => productBoundPhase fd existingStock productStock s1

/-- Lines 29-92, `checkExistingStock`: bail out when both ids are empty;
check product existence (transport failure and `null` alike reject); fetch
the snapshot (a failing listing sets the generic message, line 90); then run
the conflict checks and the preview. -/
def checkExistingStock (fd : FormData) (pq : Nat → ProductQueryResult)
    (sq : StocksQueryResult) (s : UiState) : UiState :=
  if fd.stockId = none ∧ fd.productId = none then s
  else if productMissing fd pq then
    { s with productError := "Product ID does not exist", currentStock := none }
  else
    match sq with
    | StocksQueryResult.transportError => { s with error := "Error checking stock information" }
    | StocksQueryResult.ok stocks =>
      stockAssignedPhase fd (findStockById stocks fd.stockId)
        (findStockByProduct stocks fd.productId) s

/-- The spec's `ReconciliationResult`: Create, Update or Rejected. -/
inductive ReconciliationResult where
  | Create (rec : StockRecord)
  | Update (existingId previousQuantity addedQuantity newQuantity : Nat)
  | Rejected (reason : String)
deriving DecidableEq, Repr

/-- Reading the classification off the state the effect leaves behind: a
non-empty `productError` is a rejection (it blocks submission, line 261); a
set `currentStock` is an update preview whose added and new quantities come
from the render at line 237 (`currentStock.quantity + parseInt(formData.quantity
|| 0)`); otherwise, with all three fields filled, the form is in the
create-preview state (line 265); with a field missing, no preview exists. -/
def classifyOutcome (fd : FormData) (s : UiState) : Option ReconciliationResult :=
  if s.productError ≠ "" then some (ReconciliationResult.Rejected s.productError)
  else
    match s.currentStock with
    | some cs =>
      some (ReconciliationResult.Update cs.id cs.quantity (fd.quantity.getD 0)
        (cs.quantity + fd.quantity.getD 0))
    | none =>
      match fd.stockId, fd.productId, fd.quantity with
      | some sid, some pid, some q =>
        some (ReconciliationResult.Create { id := sid, product_id := pid, quantity := q })
      | _, _, _ => none

/-- The spec's `reconcile(candidate, knownProducts, knownStocks)`: run the
check from a fresh form state and classify what it leaves behind. -/
def reconcile (fd : FormData) (pq : Nat → ProductQueryResult)
    (sq : StocksQueryResult) : Option ReconciliationResult :=
  classifyOutcome fd (checkExistingStock fd pq sq initState)

/-- Lines 151-160, `validateForm`: all three fields must be non-empty (else
the `All fields are required` error), and no `productError` may be pending. -/
def validateForm (fd : FormData) (s : UiState) : Bool × UiState :=
  if fd.stockId = none ∨ fd.productId = none ∨ fd.quantity = none then
    (false, { s with error := "All fields are required" })
  else if s.productError ≠ "" then (false, s)
  else (true, s)

/-- Lines 112-124, `handleSubmit` up to the write: on a failed validation no
request is issued (`none`); otherwise the `POST /api/stocks` body is exactly
`{ id: parseInt(stockId), product_id: parseInt(productId), quantity:
parseInt(quantity) }`. -/
def handleSubmit (fd : FormData) (s : UiState) : Option StockRecord × UiState :=
  match validateForm fd s with
  | (false, s1) => (none, s1)
  | (true, s1) =>
    (some { id := fd.stockId.getD 0, product_id := fd.productId.getD 0,
            quantity := fd.quantity.getD 0 }, s1)

/-- The raw form fields as strings, before any parsing. -/
structure RawFormData where
  stockId : String
  productId : String
  quantity : String
deriving DecidableEq, Repr

/-- Value of a list of decimal digit characters. -/
def digitsVal (cs : List Char) : Nat :=
  cs.foldl (fun a c => a * 10 + (c.toNat - 48)) 0

/-- Longest digit prefix, `none` when it is empty. -/
def digitsPrefix (cs : List Char) : Option Nat :=
  match cs.takeWhile Char.isDigit with
  | [] => none
  | ds => some (digitsVal ds)

/-- JavaScript `parseInt(value)` (radix unspecified) on the decimal inputs
the number fields produce: skip leading whitespace, an optional sign, then
the longest digit prefix; `none` stands for `NaN`. -/
def jsParseInt (s : String) : Option Int :=
  match s.toList.dropWhile Char.isWhitespace with
  | '-' :: rest => (digitsPrefix rest).map (fun n => -(n : Int))
  | '+' :: rest => (digitsPrefix rest).map (fun n => (n : Int))
  | cs => (digitsPrefix cs).map (fun n => (n : Int))

/-- `setFormData(prev => ({ ...prev, [name]: value }))` for the three known
field names. -/
def setField (fd : RawFormData) (name value : String) : RawFormData :=
  if name = "stockId" then { fd with stockId := value }
  else if name = "productId" then { fd with productId := value }
  else if name = "quantity" then { fd with quantity := value }
  else fd

/-- Lines 98-110, `handleInputChange`: for the three fields a non-empty value
is stored only when `parseInt(value)` is a number and not negative;
otherwise the handler returns without updating the state. -/
def handleInputChange (name value : String) (fd : RawFormData) : RawFormData :=
  if (name = "stockId" ∨ name = "productId" ∨ name = "quantity") ∧ value ≠ "" then
    match jsParseInt value with
    | none => fd
    | some n => if n < 0 then fd else setField fd name value
  else setField fd name value

/-- A stored field is acceptable when it is empty or parses as a
non-negative integer. -/
def fieldOk (s : String) : Prop :=
  s = "" ∨ ∃ n : Int, jsParseInt s = some n ∧ 0 ≤ n

/-- All three stored fields are acceptable. -/
def formInv (fd : RawFormData) : Prop :=
  fieldOk fd.stockId ∧ fieldOk fd.productId ∧ fieldOk fd.quantity

/-- Debounce delay of the effect at line 94, in milliseconds. -/
def debounceDelay : Nat := 500

/-- Lines 94-96 with React's effect-cleanup contract: every edit of
`stockId`/`productId` runs `clearTimeout` on the pending preview and
schedules a new `checkExistingStock` 500ms later.  Given the strictly
increasing times of the edits, a preview scheduled at edit time `t` fires at
`t + 500` unless a later edit arrives before that; the list collects the
firing times of the previews that do run. -/
def firedPreviews : List Nat → List Nat
  | [] => []
  | [t] => [t + debounceDelay]
  | t :: u :: rest =>
    (if t + debounceDelay ≤ u then [t + debounceDelay] else []) ++ firedPreviews (u :: rest)

example :
    reconcile { stockId := some 101, productId := some 1, quantity := some 20 }
      (fun _ => ProductQueryResult.found)
      (StocksQueryResult.ok [{ id := 101, product_id := 1, quantity := 50 }])
      = some (ReconciliationResult.Update 101 50 20 70) := by decide

example :
    reconcile { stockId := some 200, productId := some 1, quantity := some 10 }
      (fun _ => ProductQueryResult.found) (StocksQueryResult.ok [])
      = some (ReconciliationResult.Create { id := 200, product_id := 1, quantity := 10 }) := by
  decide

example :
    reconcile { stockId := some 102, productId := some 1, quantity := some 5 }
      (fun _ => ProductQueryResult.found)
      (StocksQueryResult.ok [{ id := 101, product_id := 1, quantity := 50 }])
      = some (ReconciliationResult.Rejected "Product ID 1 already has Stock ID 101") := by
  decide

example :
    reconcile { stockId := some 102, productId := some 999, quantity := some 5 }
      (fun _ => ProductQueryResult.notFound)
      (StocksQueryResult.ok [{ id := 101, product_id := 1, quantity := 50 }])
      = some (ReconciliationResult.Rejected "Product ID does not exist") := by decide

example : jsParseInt "-5" = some (-5) := by decide
example : jsParseInt "" = none := by decide
example : jsParseInt "3abc" = some 3 := by decide
example : jsParseInt " 12" = some 12 := by decide
example : jsParseInt "-0" = some 0 := by decide
example : handleInputChange "stockId" "-5" { stockId := "", productId := "", quantity := "" }
    = { stockId := "", productId := "", quantity := "" } := by decide
example : handleInputChange "stockId" "7" { stockId := "", productId := "", quantity := "" }
    = { stockId := "7", productId := "", quantity := "" } := by decide
example : firedPreviews [0, 100, 300] = [800] := by decide
example : firedPreviews [0, 600, 700] = [500, 1200] := by decide

lemma append_ne_empty_left (s t : String) (h : s ≠ "") : s ++ t ≠ "" := by
  intro hc
  apply h
  have hd : s.data ++ t.data = ([] : List Char) := by
    have := congrArg String.data hc
    simpa [String.data_append] using this
  exact String.ext (List.append_eq_nil.mp hd).1

lemma stockConflictMsg_ne_empty (a b : Nat) : stockConflictMsg a b ≠ "" :=
  append_ne_empty_left _ _ (append_ne_empty_left _ _ (append_ne_empty_left _ _ (by decide)))

lemma productConflictMsg_ne_empty (a b : Nat) : productConflictMsg a b ≠ "" :=
  append_ne_empty_left _ _ (append_ne_empty_left _ _ (append_ne_empty_left _ _ (by decide)))

lemma find_unique (f : StockRecord → Nat) (key : Nat) (l : List StockRecord)
    (hnd : (l.map f).Nodup) (rec : StockRecord) (hmem : rec ∈ l) (hkey : f rec = key) :
    l.find? (fun r => f r == key) = some rec := by
  induction l with
  | nil => exact absurd hmem (List.not_mem_nil rec)
  | cons a t ih =>
    rw [List.map_cons, List.nodup_cons] at hnd
    rcases List.mem_cons.mp hmem with h | h
    · subst h
      exact List.find?_cons_of_pos _ (by simp [hkey])
    · have hfa : f a ≠ key := by
        intro hfa
        exact hnd.1 (hfa ▸ hkey ▸ List.mem_map_of_mem f h)
      rw [List.find?_cons_of_neg _ (by simp [hfa])]
      exact ih hnd.2 h

/-- C4: when the stock record matching the supplied stockId carries a
different `product_id` than the supplied productId, `reconcile` yields
Rejected naming that conflicting product id — for every snapshot, before
(and regardless of) any product-already-bound situation in it. -/
theorem reconcile_stock_conflict (stocks : List StockRecord) (rec : StockRecord)
    (pq : Nat → ProductQueryResult) (sid pid : Nat) (q : Option Nat)
    (hfind : stocks.find? (fun r => r.id == sid) = some rec)
    (hne : rec.product_id ≠ pid)
    (hpq : pq pid = ProductQueryResult.found) :
    reconcile { stockId := some sid, productId := some pid, quantity := q } pq
      (StocksQueryResult.ok stocks)
      = some (ReconciliationResult.Rejected (stockConflictMsg sid rec.product_id)) := by
  simp [reconcile, checkExistingStock, productMissing, hpq, findStockById, hfind,
    stockAssignedPhase, hne, classifyOutcome, stockConflictMsg_ne_empty]

theorem reconcile_stock_conflict_witness :
    reconcile { stockId := some 101, productId := some 2, quantity := some 5 }
      (fun _ => ProductQueryResult.found)
      (StocksQueryResult.ok [{ id := 101, product_id := 1, quantity := 50 }])
      = some (ReconciliationResult.Rejected (stockConflictMsg 101 1)) :=
  reconcile_stock_conflict [{ id := 101, product_id := 1, quantity := 50 }]
    { id := 101, product_id := 1, quantity := 50 } (fun _ => ProductQueryResult.found)
    101 2 (some 5) (by decide) (by decide) rfl

/-- C5: a supplied productId that is absent from the product set makes
`reconcile` yield Rejected("Product ID does not exist") for every stockId,
quantity and stock snapshot, and the state written does not depend on the
stock listing at all (no further checks run). -/
theorem reconcile_product_absent (pq : Nat → ProductQueryResult) (pid : Nat)
    (sid q : Option Nat) (sq : StocksQueryResult)
    (hpq : pq pid = ProductQueryResult.notFound) :
    reconcile { stockId := sid, productId := some pid, quantity := q } pq sq
      = some (ReconciliationResult.Rejected "Product ID does not exist")
    ∧ checkExistingStock { stockId := sid, productId := some pid, quantity := q } pq sq initState
      = { initState with productError := "Product ID does not exist", currentStock := none } := by
  have h1 : checkExistingStock { stockId := sid, productId := some pid, quantity := q } pq sq
      initState
      = { initState with productError := "Product ID does not exist", currentStock := none } := by
    simp [checkExistingStock, productMissing, hpq]
  refine ⟨?_, h1⟩
  rw [reconcile, h1]
  simp [classifyOutcome, initState]

theorem reconcile_product_absent_witness :
    reconcile { stockId := some 5, productId := some 999, quantity := some 2 }
      (fun _ => ProductQueryResult.notFound)
      (StocksQueryResult.ok [{ id := 5, product_id := 999, quantity := 1 }])
      = some (ReconciliationResult.Rejected "Product ID does not exist") :=
  (reconcile_product_absent (fun _ => ProductQueryResult.notFound) 999 (some 5) (some 2)
    (StocksQueryResult.ok [{ id := 5, product_id := 999, quantity := 1 }]) rfl).1

/-- C6: a submission with any of the three fields empty sets the error
`All fields are required` and issues no write request. -/
theorem handleSubmit_missing_field (fd : FormData) (s : UiState)
    (h : fd.stockId = none ∨ fd.productId = none ∨ fd.quantity = none) :
    handleSubmit fd s = (none, { s with error := "All fields are required" }) := by
  simp [handleSubmit, validateForm, h]

theorem handleSubmit_missing_field_witness :
    handleSubmit { stockId := some 1, productId := some 2, quantity := none } initState
      = (none, { initState with error := "All fields are required" }) :=
  handleSubmit_missing_field { stockId := some 1, productId := some 2, quantity := none }
    initState (Or.inr (Or.inr rfl))

/-- C10: when a stock record matches the supplied stockId but the productId
field is empty, the check clears the current-stock preview and sets both
error messages to the empty string, and the run classifies as neither
Create, Update nor Rejected. -/
theorem reconcile_stock_only_unclassified (stocks : List StockRecord) (rec : StockRecord)
    (pq : Nat → ProductQueryResult) (sid : Nat) (q : Option Nat)
    (hfind : stocks.find? (fun r => r.id == sid) = some rec) :
    checkExistingStock { stockId := some sid, productId := none, quantity := q } pq
        (StocksQueryResult.ok stocks) initState
      = { error := "", productError := "", currentStock := none, stockIdExists := true }
    ∧ reconcile { stockId := some sid, productId := none, quantity := q } pq
        (StocksQueryResult.ok stocks) = none := by
  constructor
  · simp [checkExistingStock, productMissing, findStockById, hfind, findStockByProduct,
      stockAssignedPhase, productBoundPhase, previewPhase, initState]
  · simp [reconcile, checkExistingStock, productMissing, findStockById, hfind,
      findStockByProduct, stockAssignedPhase, productBoundPhase, previewPhase,
      classifyOutcome, initState]

theorem reconcile_stock_only_unclassified_witness :
    checkExistingStock { stockId := some 101, productId := none, quantity := none }
        (fun _ => ProductQueryResult.found)
        (StocksQueryResult.ok [{ id := 101, product_id := 1, quantity := 50 }]) initState
      = { error := "", productError := "", currentStock := none, stockIdExists := true }
    ∧ reconcile { stockId := some 101, productId := none, quantity := none }
        (fun _ => ProductQueryResult.found)
        (StocksQueryResult.ok [{ id := 101, product_id := 1, quantity := 50 }]) = none :=
  reconcile_stock_only_unclassified [{ id := 101, product_id := 1, quantity := 50 }]
    { id := 101, product_id := 1, quantity := 50 } (fun _ => ProductQueryResult.found)
    101 none (by decide)

/-- C1: under the data-model invariants (stock ids unique, at most one stock
record per product), when a record matches both the supplied stockId and the
supplied productId and the product exists, `reconcile` yields an Update
preview whose newQuantity is the record's quantity plus the supplied
quantity, and the message shown is `Current stock quantity: X. New quantity
will be added to this.` -/
theorem reconcile_update_preview (stocks : List StockRecord) (rec : StockRecord)
    (pq : Nat → ProductQueryResult) (sid pid q : Nat)
    (hids : (stocks.map StockRecord.id).Nodup)
    (hpids : (stocks.map StockRecord.product_id).Nodup)
    (hmem : rec ∈ stocks) (hid : rec.id = sid) (hpid : rec.product_id = pid)
    (hpq : pq pid = ProductQueryResult.found) :
    reconcile { stockId := some sid, productId := some pid, quantity := some q } pq
        (StocksQueryResult.ok stocks)
      = some (ReconciliationResult.Update rec.id rec.quantity q (rec.quantity + q))
    ∧ (checkExistingStock { stockId := some sid, productId := some pid, quantity := some q } pq
        (StocksQueryResult.ok stocks) initState).error = updatePreviewMsg rec.quantity := by
  have h1 := find_unique StockRecord.id sid stocks hids rec hmem hid
  have h2 := find_unique StockRecord.product_id pid stocks hpids rec hmem hpid
  constructor
  · simp [reconcile, checkExistingStock, productMissing, hpq, findStockById, h1,
      findStockByProduct, h2, stockAssignedPhase, hpid, productBoundPhase, conflictsWith,
      previewPhase, classifyOutcome, initState]
  · simp [checkExistingStock, productMissing, hpq, findStockById, h1,
      findStockByProduct, h2, stockAssignedPhase, hpid, productBoundPhase, conflictsWith,
      previewPhase, initState]

theorem reconcile_update_preview_witness :
    reconcile { stockId := some 101, productId := some 1, quantity := some 20 }
        (fun _ => ProductQueryResult.found)
        (StocksQueryResult.ok [{ id := 101, product_id := 1, quantity := 50 }])
      = some (ReconciliationResult.Update 101 50 20 70)
    ∧ (checkExistingStock { stockId := some 101, productId := some 1, quantity := some 20 }
        (fun _ => ProductQueryResult.found)
        (StocksQueryResult.ok [{ id := 101, product_id := 1, quantity := 50 }]) initState).error
      = updatePreviewMsg 50 :=
  reconcile_update_preview [{ id := 101, product_id := 1, quantity := 50 }]
    { id := 101, product_id := 1, quantity := 50 } (fun _ => ProductQueryResult.found)
    101 1 20 (by decide) (by decide) (by decide) rfl rfl rfl

/-- C2: when no stock record matches the supplied stockId, the product
exists, and no record already holds the supplied productId, `reconcile`
yields a Create preview carrying exactly the supplied triple, and the write
request submitted from that state carries that same exact triple. -/
theorem reconcile_create_exact (stocks : List StockRecord)
    (pq : Nat → ProductQueryResult) (sid pid q : Nat)
    (hpq : pq pid = ProductQueryResult.found)
    (hnoid : ∀ r ∈ stocks, r.id ≠ sid)
    (hnopid : ∀ r ∈ stocks, r.product_id ≠ pid) :
    reconcile { stockId := some sid, productId := some pid, quantity := some q } pq
        (StocksQueryResult.ok stocks)
      = some (ReconciliationResult.Create { id := sid, product_id := pid, quantity := q })
    ∧ (handleSubmit { stockId := some sid, productId := some pid, quantity := some q }
        (checkExistingStock { stockId := some sid, productId := some pid, quantity := some q } pq
          (StocksQueryResult.ok stocks) initState)).1
      = some { id := sid, product_id := pid, quantity := q } := by
  have h1 : stocks.find? (fun r => r.id == sid) = none :=
    List.find?_eq_none.mpr (fun r hr => by simp [hnoid r hr])
  have h2 : stocks.find? (fun r => r.product_id == pid) = none :=
    List.find?_eq_none.mpr (fun r hr => by simp [hnopid r hr])
  constructor
  · simp [reconcile, checkExistingStock, productMissing, hpq, findStockById, h1,
      findStockByProduct, h2, stockAssignedPhase, productBoundPhase, previewPhase,
      classifyOutcome, initState]
  · simp [checkExistingStock, productMissing, hpq, findStockById, h1,
      findStockByProduct, h2, stockAssignedPhase, productBoundPhase, previewPhase,
      handleSubmit, validateForm, initState]

theorem reconcile_create_exact_witness :
    reconcile { stockId := some 200, productId := some 1, quantity := some 10 }
        (fun _ => ProductQueryResult.found) (StocksQueryResult.ok [])
      = some (ReconciliationResult.Create { id := 200, product_id := 1, quantity := 10 })
    ∧ (handleSubmit { stockId := some 200, productId := some 1, quantity := some 10 }
        (checkExistingStock { stockId := some 200, productId := some 1, quantity := some 10 }
          (fun _ => ProductQueryResult.found) (StocksQueryResult.ok []) initState)).1
      = some { id := 200, product_id := 1, quantity := 10 } :=
  reconcile_create_exact [] (fun _ => ProductQueryResult.found) 200 1 10 rfl
    (by intro r hr; exact absurd hr (List.not_mem_nil r))
    (by intro r hr; exact absurd hr (List.not_mem_nil r))

/-- C3 counterexample: with stocks `[{id 1, product 5}, {id 2, product 7}]`
and input stockId=1, productId=7, product 7 is bound to the other stock
record with id 2, yet the rejection message is the stock-assignment one
(`Stock ID 1 is already assigned to Product ID 5`), not the claimed
`Product ID 7 already has Stock ID 2`. -/
theorem reconcile_product_bound_msg_cex :
    reconcile { stockId := some 1, productId := some 7, quantity := some 3 }
      (fun _ => ProductQueryResult.found)
      (StocksQueryResult.ok
        [{ id := 1, product_id := 5, quantity := 0 },
         { id := 2, product_id := 7, quantity := 0 }])
      = some (ReconciliationResult.Rejected (stockConflictMsg 1 5))
    ∧ stockConflictMsg 1 5 ≠ productConflictMsg 7 2 := by decide

/-- C3 amended: when the supplied productId is bound to a stock record `ps`
in the snapshot and the product exists, `reconcile` yields Rejected; the
rejection names that other stock id (`Product ID {pid} already has Stock ID
{ps.id}`) when no record matches the supplied stockId, while when a record
does match the supplied stockId (with a product_id that then differs from
the supplied one) the stock-assignment check fires first and the rejection
instead names that record's conflicting product id. -/
theorem reconcile_product_bound (stocks : List StockRecord) (ps : StockRecord)
    (pq : Nat → ProductQueryResult) (sid pid : Nat) (q : Option Nat)
    (hpq : pq pid = ProductQueryResult.found)
    (hfindp : stocks.find? (fun r => r.product_id == pid) = some ps) :
    ((∀ r ∈ stocks, r.id ≠ sid) →
      reconcile { stockId := some sid, productId := some pid, quantity := q } pq
          (StocksQueryResult.ok stocks)
        = some (ReconciliationResult.Rejected (productConflictMsg pid ps.id)))
    ∧ (∀ es : StockRecord, stocks.find? (fun r => r.id == sid) = some es →
        es.product_id ≠ pid →
        reconcile { stockId := some sid, productId := some pid, quantity := q } pq
            (StocksQueryResult.ok stocks)
          = some (ReconciliationResult.Rejected (stockConflictMsg sid es.product_id))) := by
  constructor
  · intro hnoid
    have h1 : stocks.find? (fun r => r.id == sid) = none :=
      List.find?_eq_none.mpr (fun r hr => by simp [hnoid r hr])
    simp [reconcile, checkExistingStock, productMissing, hpq, findStockById, h1,
      findStockByProduct, hfindp, stockAssignedPhase, productBoundPhase, conflictsWith,
      classifyOutcome, productConflictMsg_ne_empty]
  · intro es hfind hne
    simp [reconcile, checkExistingStock, productMissing, hpq, findStockById, hfind,
      findStockByProduct, hfindp, stockAssignedPhase, hne, classifyOutcome,
      stockConflictMsg_ne_empty]

theorem reconcile_product_bound_witness :
    reconcile { stockId := some 102, productId := some 1, quantity := some 5 }
      (fun _ => ProductQueryResult.found)
      (StocksQueryResult.ok [{ id := 101, product_id := 1, quantity := 50 }])
      = some (ReconciliationResult.Rejected (productConflictMsg 1 101)) :=
  (reconcile_product_bound [{ id := 101, product_id := 1, quantity := 50 }]
    { id := 101, product_id := 1, quantity := 50 } (fun _ => ProductQueryResult.found)
    102 1 (some 5) rfl (by decide)).1 (by decide)

/-- C7: a transport failure of the product existence query leads to exactly
the same state as a `product: null` response — the `Product ID does not
exist` rejection, independent of the stock listing — while a transport
failure of the stock listing query (the product check, if any, having
passed) sets the generic `Error checking stock information` message. -/
theorem transport_failure_handling (fd : FormData) (pq : Nat → ProductQueryResult)
    (sq : StocksQueryResult) (s : UiState) (pid : Nat) :
    (fd.productId = some pid →
      checkExistingStock fd (fun _ => ProductQueryResult.transportError) sq s
        = checkExistingStock fd (fun _ => ProductQueryResult.notFound) sq s
      ∧ checkExistingStock fd (fun _ => ProductQueryResult.transportError) sq s
        = { s with productError := "Product ID does not exist", currentStock := none })
    ∧ ((fd.productId = some pid ∧ pq pid = ProductQueryResult.found ∨
        fd.productId = none ∧ fd.stockId ≠ none) →
      checkExistingStock fd pq StocksQueryResult.transportError s
        = { s with error := "Error checking stock information" }) := by
  constructor
  · intro hpid
    constructor <;> simp [checkExistingStock, productMissing, hpid]
  · rintro (⟨hpid, hpq⟩ | ⟨hpid, hsid⟩)
    · simp [checkExistingStock, productMissing, hpid, hpq]
    · simp [checkExistingStock, productMissing, hpid, hsid]

theorem transport_failure_handling_witness :
    (checkExistingStock { stockId := some 2, productId := some 1, quantity := some 3 }
        (fun _ => ProductQueryResult.transportError) (StocksQueryResult.ok []) initState
      = checkExistingStock { stockId := some 2, productId := some 1, quantity := some 3 }
        (fun _ => ProductQueryResult.notFound) (StocksQueryResult.ok []) initState)
    ∧ checkExistingStock { stockId := some 2, productId := some 1, quantity := some 3 }
        (fun _ => ProductQueryResult.found) StocksQueryResult.transportError initState
      = { initState with error := "Error checking stock information" } := by
  have h := transport_failure_handling
    { stockId := some 2, productId := some 1, quantity := some 3 }
    (fun _ => ProductQueryResult.found) (StocksQueryResult.ok []) initState 1
  exact ⟨(h.1 rfl).1, h.2 (Or.inl ⟨rfl, rfl⟩)⟩

lemma setField_other (fd : RawFormData) (name value : String)
    (h1 : name ≠ "stockId") (h2 : name ≠ "productId") (h3 : name ≠ "quantity") :
    setField fd name value = fd := by
  simp [setField, h1, h2, h3]

lemma setField_inv (fd : RawFormData) (name value : String)
    (hfd : formInv fd) (hv : fieldOk value) : formInv (setField fd name value) := by
  unfold setField
  split_ifs
  · exact ⟨hv, hfd.2.1, hfd.2.2⟩
  · exact ⟨hfd.1, hv, hfd.2.2⟩
  · exact ⟨hfd.1, hfd.2.1, hv⟩
  · exact hfd

/-- C8: for the three tracked fields, `handleInputChange` drops any
non-empty value whose `parseInt` is `NaN` or negative, leaving the stored
state unchanged; consequently the invariant that every non-empty stored
field parses as a non-negative integer is preserved by every input change
(and holds of the empty form the dialog opens with). -/
theorem handleInputChange_filter (name value : String) (fd : RawFormData) :
    ((name = "stockId" ∨ name = "productId" ∨ name = "quantity") → value ≠ "" →
      (jsParseInt value = none ∨ ∃ n : Int, jsParseInt value = some n ∧ n < 0) →
      handleInputChange name value fd = fd)
    ∧ (formInv fd → formInv (handleInputChange name value fd))
    ∧ formInv { stockId := "", productId := "", quantity := "" } := by
  refine ⟨?_, ?_, Or.inl rfl, Or.inl rfl, Or.inl rfl⟩
  · intro hname hval hbad
    unfold handleInputChange
    rw [if_pos ⟨hname, hval⟩]
    rcases hbad with hnone | ⟨n, hn, hneg⟩
    · rw [hnone]
    · rw [hn]
      simp only [hneg, if_true]
  · intro hinv
    unfold handleInputChange
    by_cases hcond : (name = "stockId" ∨ name = "productId" ∨ name = "quantity") ∧ value ≠ ""
    · rw [if_pos hcond]
      cases hp : jsParseInt value with
      | none => exact hinv
      | some n =>
        dsimp only
        by_cases hneg : n < 0
        · rw [if_pos hneg]
          exact hinv
        · rw [if_neg hneg]
          exact setField_inv fd name value hinv (Or.inr ⟨n, hp, le_of_not_lt hneg⟩)
    · rw [if_neg hcond]
      by_cases hname : name = "stockId" ∨ name = "productId" ∨ name = "quantity"
      · have hval : value = "" := by
          by_contra hv
          exact hcond ⟨hname, hv⟩
        exact setField_inv fd name value hinv (Or.inl hval)
      · push_neg at hname
        rw [setField_other fd name value hname.1 hname.2.1 hname.2.2]
        exact hinv

theorem handleInputChange_filter_witness :
    handleInputChange "stockId" "-5" { stockId := "", productId := "", quantity := "" }
      = { stockId := "", productId := "", quantity := "" }
    ∧ formInv (handleInputChange "quantity" "7"
        { stockId := "", productId := "", quantity := "" }) := by
  refine ⟨?_, ?_⟩
  · exact (handleInputChange_filter "stockId" "-5"
      { stockId := "", productId := "", quantity := "" }).1 (Or.inl rfl) (by decide)
      (Or.inr ⟨-5, by decide, by decide⟩)
  · exact (handleInputChange_filter "quantity" "7"
      { stockId := "", productId := "", quantity := "" }).2.1
      ⟨Or.inl rfl, Or.inl rfl, Or.inl rfl⟩

lemma firedPreviews_cancel (t u : Nat) (rest : List Nat) (h : u < t + debounceDelay) :
    firedPreviews (t :: u :: rest) = firedPreviews (u :: rest) := by
  simp only [firedPreviews]
  rw [if_neg (Nat.not_le.mpr h)]
  simp

/-- C9: an edit arriving within 500ms of the previous one cancels the
pending preview (the run of `t :: u :: rest` is the run of `u :: rest`
whenever `u < t + 500`), so over any burst of edits whose gaps are all
shorter than the 500ms window only the preview scheduled by the last edit
ever fires, 500ms after it. -/
theorem debounce_last_preview_only :
    (∀ (t u : Nat) (rest : List Nat), u < t + debounceDelay →
      firedPreviews (t :: u :: rest) = firedPreviews (u :: rest))
    ∧ ∀ (edits : List Nat) (t : Nat),
        List.Chain' (fun a b => b < a + debounceDelay) edits →
        edits.getLast? = some t →
        firedPreviews edits = [t + debounceDelay] := by
  refine ⟨firedPreviews_cancel, ?_⟩
  intro edits
  induction edits with
  | nil =>
    intro t _ h
    simp at h
  | cons a tail ih =>
    intro t hchain hlast
    cases tail with
    | nil =>
      simp only [List.getLast?_singleton, Option.some.injEq] at hlast
      subst hlast
      rfl
    | cons b rest =>
      rw [List.chain'_cons] at hchain
      rw [List.getLast?_cons_cons] at hlast
      rw [firedPreviews_cancel a b rest hchain.1]
      exact ih t hchain.2 hlast

theorem debounce_last_preview_only_witness :
    firedPreviews [0, 100, 300] = firedPreviews [100, 300]
    ∧ firedPreviews [0, 100, 300] = [800] := by
  have h := debounce_last_preview_only
  exact ⟨h.1 0 100 [300] (by decide),
    h.2 [0, 100, 300] 300
      (by simp [List.chain'_cons, List.chain'_singleton, debounceDelay]) (by decide)⟩
